import Mathlib

set_option autoImplicit false

/-!
Shallow embedding of the `mlflow.database` deployment module
(`src/mlflow/database/__init__.py` and
`src/mlflow/database/schema/model_table.py`).

The embedding records the database-visible behaviour of each function as
explicit data: session operations become event lists, exceptions become an
`Except` error channel, and the SQLAlchemy declarative table class becomes a
first-order schema record.
-/

deriving instance DecidableEq for Except

namespace MlflowDeploy

/-! ### Error model

`mlflow.protos.databricks_pb2` error codes used by the module, and the two
kinds of Python exception the transaction scope distinguishes:
`MlflowException` (already classified, carries an error code) versus any
other exception. `MlflowException(message=e, error_code=INTERNAL_ERROR)`
stores the original exception object as its message, so the message field
can hold either a string or a wrapped plain exception. -/

inductive ErrorCode
  | INTERNAL_ERROR
  | INVALID_PARAMETER_VALUE
  | RESOURCE_DOES_NOT_EXIST
deriving DecidableEq

/-- A Python exception that is not an `MlflowException`. -/
structure PlainExc where
  message : String
deriving DecidableEq

/-- The `message` argument of `MlflowException`: either a string, or a whole
wrapped exception (as in `MlflowException(message=e, ...)`). -/
inductive ExcMessage
  | ofString (s : String)
  | ofExc (e : PlainExc)
deriving DecidableEq

/-- An exception as classified by the `except` clauses of
`make_managed_session`. -/
inductive Exc
  | mlflowException (message : ExcMessage) (error_code : ErrorCode)
  | otherException (e : PlainExc)
deriving DecidableEq

/-! ### Managed session (`_get_managed_session_maker` / `make_managed_session`)

The unit of work executed under `with ManagedSessionMaker() as session:` is
modelled by its outcome, an `Except Exc α`. The embedding returns the result
propagated to the caller together with the list of operations performed on
the session after the unit of work, in order. -/

inductive SessionEvent
  | commit
  | rollback
  | close
deriving DecidableEq

/-- Embeds the body of `make_managed_session`:
`try: yield; commit / except MlflowException: rollback; raise /
except Exception as e: rollback; raise MlflowException(message=e,
error_code=INTERNAL_ERROR) / finally: close`. -/
def make_managed_session {α : Type} (uow : Except Exc α) :
    Except Exc α × List SessionEvent :=
  match uow with
  | .ok a => ⟨.ok a, [.commit, .close]⟩
  | .error (.mlflowException m c) =>
      ⟨.error (.mlflowException m c), [.rollback, .close]⟩
  | .error (.otherException e) =>
      ⟨.error (.mlflowException (.ofExc e) .INTERNAL_ERROR), [.rollback, .close]⟩

/-- `true` exactly when the unit of work completed without raising. -/
def exceptIsOk {ε α : Type} : Except ε α → Bool
  | .ok _ => true
  | .error _ => false

/-! ### Flavor validation (`_validate_deployment_flavor`) -/

/-- `SUPPORTED_DEPLOYMENT_FLAVORS = [onnx.FLAVOR_NAME]`. -/
def SUPPORTED_DEPLOYMENT_FLAVORS : List String := ["onnx"]

/-- An MLflow `Model` manifest: its `flavors` dict, as an association list
of flavor name and flavor configuration, in declaration order. -/
structure Model where
  flavors : List (String × String)
deriving DecidableEq

/-- `model_config.flavors.keys()`. -/
def Model.flavorNames (m : Model) : List String := m.flavors.map Prod.fst

/-- The two structured errors `_validate_deployment_flavor` raises. Source
raises `MlflowException` with `INVALID_PARAMETER_VALUE` (unsupported flavor,
message names the supported set) or `RESOURCE_DOES_NOT_EXIST` (flavor absent
from the manifest, message names `model_config.flavors.keys()`). -/
inductive ValidationError
  | unsupportedFlavor (flavor : Option String) (supported : List String)
  | flavorNotPresent (flavor : String) (model_flavors : List String)
deriving DecidableEq

/-- Embeds `_validate_deployment_flavor(model_config, flavor)`. The flavor
argument is `Option String` so that a caller passing Python `None` is
representable; since `None not in SUPPORTED_DEPLOYMENT_FLAVORS` is true in
Python, the `none` case takes the first (`unsupported`) branch. -/
def validate_deployment_flavor (model_config : Model) (flavor : Option String) :
    Except ValidationError Unit :=
  match flavor with
  | none =>
      .error (.unsupportedFlavor none SUPPORTED_DEPLOYMENT_FLAVORS)
  | some f =>
      if f ∉ SUPPORTED_DEPLOYMENT_FLAVORS then
        .error (.unsupportedFlavor (some f) SUPPORTED_DEPLOYMENT_FLAVORS)
      else if f ∉ model_config.flavorNames then
        .error (.flavorNotPresent f model_config.flavorNames)
      else
        .ok ()

/-! ### Table schema (`schema/model_table.py`, `make_deployed_model`) -/

inductive SqlType
  | IntegerT
  | StringT (limit : Nat)
  | VarbinaryT
  | Datetime2T
deriving DecidableEq

/-- One `Column(...)` declaration: name, SQL type, the `nullable` keyword as
written in the source (`none` when the keyword is absent, as for
`model_id`), and the `autoincrement` keyword. -/
structure ColumnDef where
  name : String
  type : SqlType
  nullable : Option Bool
  autoincrement : Bool
deriving DecidableEq

/-- The schema carried by the dynamically generated `DeployedModel` class:
`__tablename__`, the column list, and the
`PrimaryKeyConstraint('model_id', name='model_pk_' + name)`. -/
structure TableSchema where
  tablename : String
  columns : List ColumnDef
  primary_key_columns : List String
  primary_key_name : String
deriving DecidableEq

/-- Embeds the class body of `make_deployed_model(name)`: the schema content
a successful call produces. The generated class declares the same column set
for every name; only `__tablename__` and the primary-key constraint name
depend on `name`. The registration of the class on the shared declarative
`Base` is stateful and is embedded separately by
`make_deployed_model_on_base`. -/
def make_deployed_model (name : String) : TableSchema :=
  ⟨name,
   [⟨"model_id", .IntegerT, none, true⟩,
    ⟨"model_name", .StringT 256, some false, false⟩,
    ⟨"model_version", .StringT 50, some false, false⟩,
    ⟨"model_framework", .StringT 50, some false, false⟩,
    ⟨"model_framework_version", .StringT 50, some false, false⟩,
    ⟨"model", .VarbinaryT, some true, false⟩,
    ⟨"model_creation_time", .Datetime2T, some true, false⟩,
    ⟨"model_deployment_time", .Datetime2T, some true, false⟩,
    ⟨"deployed_by", .IntegerT, some true, false⟩,
    ⟨"model_description", .StringT 256, some true, false⟩,
    ⟨"experiment_name", .StringT 100, some true, false⟩],
   ["model_id"],
   "model_pk_" ++ name⟩

/-- The in-process error SQLAlchemy raises when a second declarative class
declares a `__tablename__` already registered in the shared `Base.metadata`:
`sqlalchemy.exc.InvalidRequestError` (table already defined for this
MetaData instance). -/
inductive SqlAlchemyError
  | invalidRequestError (tablename : String)
deriving DecidableEq

/-- Embeds `make_deployed_model(name)` together with its effect on the
shared module-level declarative `Base`: `registry` is the set of table names
already registered in `Base.metadata` by earlier calls in this process.
Defining the class registers a new `Table(name)` there, so a repeated call
with an already-registered name raises `InvalidRequestError` instead of
returning a schema; a first call returns the schema content and the grown
registry. -/
def make_deployed_model_on_base (registry : List String) (name : String) :
    Except SqlAlchemyError (TableSchema × List String) :=
  if name ∈ registry then
    .error (.invalidRequestError name)
  else
    .ok ⟨make_deployed_model name, registry ++ [name]⟩

/-- Embeds `table.__table__.create(bind=engine, checkfirst=True)` acting on
the set of table names existing in the target database: with `checkfirst`
a pre-existing table is left untouched (treated as success), otherwise the
table is created. -/
def table_create_checkfirst (existing : List String) (tablename : String) :
    List String :=
  if tablename ∈ existing then existing else existing ++ [tablename]

/-! ### The deployment entry point (`create`) -/

/-- One row of the deployed-model table, with the fields `create` passes to
the generated class constructor. Binary and timestamp payloads are
`Option`-valued since the source passes `None` for them. -/
structure DeployedModelRow where
  model_name : String
  model_version : String
  model_framework : String
  model_framework_version : String
  model : Option (List Nat)
  model_creation_time : Option Nat
  model_deployment_time : Option Nat
  deployed_by : Option Nat
  model_description : Option String
  experiment_name : Option String
deriving DecidableEq

/-- Database-visible operations performed by `create`, in program order. -/
inductive DeployEvent
  | engineCreated (db_uri : String)
  | tableCreated (table_name : String)
  | sessionOpened
  | rowAdded (row : DeployedModelRow)
  | flushed
  | sessionCommitted
  | sessionRolledBack
  | sessionClosed
deriving DecidableEq

def sessionEventToDeployEvent : SessionEvent → DeployEvent
  | .commit => .sessionCommitted
  | .rollback => .sessionRolledBack
  | .close => .sessionClosed

/-- The row literal constructed inside `create`:
`table(model_name="name", model_version="1.0", model_framework="t",
model_framework_version="t", model=None, model_creation_time=None,
model_deployment_time=None, deployed_by=None, model_description=None,
experiment_name=None)`. -/
def createPlaceholderRow : DeployedModelRow :=
  ⟨"name", "1.0", "t", "t", none, none, none, none, none, none⟩

/-- Embeds `create(model_uri, db_uri, flavor, table_name)`. The source body
runs, in order: `sqlalchemy.create_engine(db_uri)`;
`make_deployed_model(table_name)`; `table.__table__.create(bind=engine,
checkfirst=True)`; then opens a managed session, adds the placeholder row
and flushes. Artifact download, manifest loading,
`_validate_deployment_flavor` and flavor-configuration lookup are commented
out in the source, so `model_uri` and `flavor` are never consulted and no
validation event ever occurs. The result is the propagated outcome together
with the event trace. -/
def create (model_uri : String) (db_uri : String) (flavor : String)
    (table_name : String) : Except Exc Unit × List DeployEvent :=
  let schema := make_deployed_model table_name
  let row := createPlaceholderRow
  let sessionResult := make_managed_session (Except.ok ())
  ⟨sessionResult.1,
   [DeployEvent.engineCreated db_uri,
    DeployEvent.tableCreated schema.tablename,
    DeployEvent.sessionOpened,
    DeployEvent.rowAdded row,
    DeployEvent.flushed]
   ++ sessionResult.2.map sessionEventToDeployEvent⟩

/-- The rows inserted along a trace, in order. -/
def rowsAdded (trace : List DeployEvent) : List DeployedModelRow :=
  trace.filterMap fun e =>
    match e with
    | .rowAdded r => some r
    | _ => none

/-- Embeds the model-column value bound by `insert_db`: the insert statement
`table.insert().values(model=artifact_content)` stores exactly the bytes
read from the artifact file. -/
def insert_db_model_value (artifact_content : List Nat) : Option (List Nat) :=
  some artifact_content

end MlflowDeploy

namespace MlflowDeploy

/-! ### Theorems -/

/-- Claim C1: the claim says no engine is created, no table-creation issued
and no transaction opened before artifact resolution, flavor validation and
metadata collection have all succeeded. The code violates this: at a call
whose flavor is unsupported (so validation, had it run, would have failed),
`create` still creates the engine as its very first action, issues the
table creation, opens a session, commits the placeholder row and raises no
error at all. -/
theorem create_touches_db_without_validation :
    (create "models:/m/1" "db://host/db" "tensorflow" "models").2.head? =
      some (DeployEvent.engineCreated "db://host/db") ∧
    DeployEvent.tableCreated "models" ∈
      (create "models:/m/1" "db://host/db" "tensorflow" "models").2 ∧
    DeployEvent.sessionCommitted ∈
      (create "models:/m/1" "db://host/db" "tensorflow" "models").2 ∧
    (create "models:/m/1" "db://host/db" "tensorflow" "models").1 =
      Except.ok () ∧
    validate_deployment_flavor ⟨[]⟩ (some "tensorflow") =
      Except.error
        (ValidationError.unsupportedFlavor (some "tensorflow")
          SUPPORTED_DEPLOYMENT_FLAVORS) := by
  decide

/-- Claim C2: the claim says the inserted row always carries a non-null
`model_deployment_time` equal to the insert time. The code inserts exactly
one row, the placeholder row, whose `model_deployment_time` is `None`. -/
theorem create_inserts_null_deployment_time :
    rowsAdded (create "models:/m/1" "db://host/db" "onnx" "models").2 =
      [createPlaceholderRow] ∧
    createPlaceholderRow.model_deployment_time = none := by
  decide

/-- Claim C3: the claim says the stored `model` blob is byte-identical to
the artifact file contents. The deployment entry point `create` never reads
the artifact: the single inserted row carries `model = None`. -/
theorem create_inserts_null_model_blob :
    (rowsAdded (create "models:/m/1" "db://host/db" "onnx" "models").2).map
      DeployedModelRow.model = [none] := by
  decide

/-- Claim C4: a unit of work raising an `MlflowException` is rolled back and
the same exception re-raised unchanged; a unit of work raising any other
exception is rolled back and re-raised wrapped as an `MlflowException` with
code `INTERNAL_ERROR` whose message is the original exception; and an
erroring unit of work always propagates some error (none is swallowed). -/
theorem managed_session_error_propagation (α : Type) (m : ExcMessage)
    (c : ErrorCode) (e : PlainExc) :
    make_managed_session (α := α) (.error (.mlflowException m c)) =
      ⟨.error (.mlflowException m c), [.rollback, .close]⟩ ∧
    make_managed_session (α := α) (.error (.otherException e)) =
      ⟨.error (.mlflowException (.ofExc e) .INTERNAL_ERROR),
       [.rollback, .close]⟩ ∧
    (∀ err : Exc, ∃ err2 : Exc,
      (make_managed_session (α := α) (.error err)).1 = .error err2) := by
  refine ⟨rfl, rfl, ?_⟩
  intro err
  cases err <;> exact ⟨_, rfl⟩

/-- Claim C5: every managed-session call performs exactly one of commit and
rollback: commit exactly when the unit of work completes without raising,
rollback exactly when it raises. -/
theorem managed_session_single_outcome (α : Type) (uow : Except Exc α) :
    (make_managed_session uow).2.count SessionEvent.commit
      + (make_managed_session uow).2.count SessionEvent.rollback = 1 ∧
    (SessionEvent.commit ∈ (make_managed_session uow).2 ↔
      exceptIsOk uow = true) ∧
    (SessionEvent.rollback ∈ (make_managed_session uow).2 ↔
      exceptIsOk uow = false) := by
  cases uow with
  | ok a => simp [make_managed_session, exceptIsOk]
  | error err => cases err <;> simp [make_managed_session, exceptIsOk]

/-- Claim C6: the session is closed on every exit path of the managed
session: after a commit, after a classified-error rollback, and after an
unclassified-error rollback. -/
theorem managed_session_always_closes (α : Type) (uow : Except Exc α) :
    SessionEvent.close ∈ (make_managed_session uow).2 := by
  cases uow with
  | ok a => simp [make_managed_session]
  | error err => cases err <;> simp [make_managed_session]

/-- Claim C7: for an explicitly requested flavor, validation raises the
unsupported-flavor error exactly when the flavor is outside the supported
set (regardless of the manifest, so the supported-set check takes
precedence); raises the flavor-not-present error, carrying the flavors the
manifest does contain, exactly when the flavor is supported but absent from
the manifest; and succeeds exactly when the flavor is supported and
present. -/
theorem validate_flavor_explicit (m : Model) (f : String) :
    (validate_deployment_flavor m (some f) =
        Except.error
          (ValidationError.unsupportedFlavor (some f)
            SUPPORTED_DEPLOYMENT_FLAVORS) ↔
      f ∉ SUPPORTED_DEPLOYMENT_FLAVORS) ∧
    (validate_deployment_flavor m (some f) =
        Except.error (ValidationError.flavorNotPresent f m.flavorNames) ↔
      (f ∈ SUPPORTED_DEPLOYMENT_FLAVORS ∧ f ∉ m.flavorNames)) ∧
    (validate_deployment_flavor m (some f) = Except.ok () ↔
      (f ∈ SUPPORTED_DEPLOYMENT_FLAVORS ∧ f ∈ m.flavorNames)) := by
  by_cases hs : f ∈ SUPPORTED_DEPLOYMENT_FLAVORS <;>
    by_cases hm : f ∈ m.flavorNames <;>
      simp [validate_deployment_flavor, hs, hm]

/-- Claim C8 counterexample: the claim says that with no requested flavor,
validation scans the manifest and returns the first supported flavor it
lists. For a manifest listing the supported flavor `onnx`, validation with
no requested flavor does not succeed: it raises the unsupported-flavor
error, naming only the supported set. -/
theorem auto_detect_counterexample :
    validate_deployment_flavor ⟨[⟨"onnx", "cfg"⟩]⟩ none =
      Except.error
        (ValidationError.unsupportedFlavor none
          SUPPORTED_DEPLOYMENT_FLAVORS) ∧
    validate_deployment_flavor ⟨[⟨"onnx", "cfg"⟩]⟩ none ≠ Except.ok () := by
  decide

/-- Claim C8 as amended: when no flavor is requested, validation never
consults the manifest; for every manifest it fails with the
unsupported-flavor error naming only the supported set, even when the
manifest lists a supported flavor, and no auto-detection is performed. -/
theorem auto_detect_always_unsupported (m : Model) :
    validate_deployment_flavor m none =
      Except.error
        (ValidationError.unsupportedFlavor none
          SUPPORTED_DEPLOYMENT_FLAVORS) := rfl

/-- Claim C9 counterexample: the claim says repeated acquisitions with the
same table name return the same schema definition. At the concrete name
`models`, the first call on a fresh shared `Base` returns the schema and
registers the name; the second call in the same process raises
`InvalidRequestError` and returns no schema at all, so the calls are not
memoized. -/
theorem schema_not_memoized_counterexample :
    make_deployed_model_on_base [] "models" =
      Except.ok ⟨make_deployed_model "models", ["models"]⟩ ∧
    make_deployed_model_on_base ["models"] "models" =
      Except.error (SqlAlchemyError.invalidRequestError "models") := by
  exact ⟨rfl, rfl⟩

/-- Claim C9 as amended: schema acquisition is not memoized. A first call
for a table name returns a schema determined by the name alone and
registers the name on the shared declarative base; a repeated call with an
already-registered name raises `InvalidRequestError` instead of returning
the same schema, so it also issues no further table-creation statement.
The physical creation with checkfirst remains idempotent: a pre-existing
table is treated as success, a second creation after a first changes
nothing, and after creation the table exists. -/
theorem schema_registration_amended (name : String)
    (registry existing : List String) :
    (name ∉ registry →
      make_deployed_model_on_base registry name =
        Except.ok ⟨make_deployed_model name, registry ++ [name]⟩) ∧
    (name ∈ registry →
      make_deployed_model_on_base registry name =
        Except.error (SqlAlchemyError.invalidRequestError name)) ∧
    (name ∈ existing → table_create_checkfirst existing name = existing) ∧
    table_create_checkfirst (table_create_checkfirst existing name) name =
      table_create_checkfirst existing name ∧
    name ∈ table_create_checkfirst existing name := by
  refine ⟨?_, ?_, ?_, ?_, ?_⟩
  · intro h
    simp [make_deployed_model_on_base, h]
  · intro h
    simp [make_deployed_model_on_base, h]
  · intro h
    simp [table_create_checkfirst, h]
  · by_cases h : name ∈ existing <;> simp [table_create_checkfirst, h]
  · by_cases h : name ∈ existing <;> simp [table_create_checkfirst, h]

/-- Claim C9 witness: at the concrete name `models`, a repeated acquisition
against a base that already registered it raises `InvalidRequestError`, and
checkfirst creation against a database already holding the table changes
nothing. -/
theorem schema_registration_amended_witness :
    "models" ∈ ["models"] ∧
    make_deployed_model_on_base ["models"] "models" =
      Except.error (SqlAlchemyError.invalidRequestError "models") ∧
    table_create_checkfirst ["models"] "models" = ["models"] :=
  ⟨by decide,
   (schema_registration_amended "models" ["models"] ["models"]).2.1
     (by decide),
   (schema_registration_amended "models" ["models"] ["models"]).2.2.1
     (by decide)⟩

/-- Claim C10: the content of the row inserted by `create` is the fixed
placeholder row and is identical across any two calls, whatever their
model URI, database URI and flavor arguments: the insert does not depend on
the artifact being deployed. -/
theorem create_row_noninterference (uri1 db1 f1 uri2 db2 f2 tn : String) :
    rowsAdded (create uri1 db1 f1 tn).2 = rowsAdded (create uri2 db2 f2 tn).2 ∧
    rowsAdded (create uri1 db1 f1 tn).2 =
      [⟨"name", "1.0", "t", "t", none, none, none, none, none, none⟩] := by
  exact ⟨rfl, rfl⟩

end MlflowDeploy
